import Mathlib

/-
  Verification of the dns-fallback-pihole proxy against its specification.

  Shallow embedding of the two proxy prototypes:
    * `dns_fallback_proxy.py`  (the "enhanced" proxy, class EnhancedDNSProxy)
    * `lite_dns_failover_proxy.py` (the "lite" proxy)

  Machine integers are Nat/Int; wall-clock instants are Nat; raw wire bytes are
  the `Wire` type (either bytes accepted by dnslib's `DNSRecord.parse`, carrying
  the parsed message, or bytes it rejects); the network is a `Net` value giving
  the outcome of one exchange per endpoint and transport.
-/

set_option maxRecDepth 8000

namespace DnsProxy

/-- The fields of a dnslib `DNSRecord` that the proxies read: header id and flag
bits, rcode, the first question's name and type, and the section counts. -/
structure DNSMessage where
  id : Nat := 0
  qr : Bool := false
  opcode : Nat := 0
  aa : Bool := false
  tc : Bool := false
  rd : Bool := true
  ra : Bool := false
  rcode : Nat := 0
  qname : String := ""
  qtype : Nat := 1
  an : Nat := 0
  ns : Nat := 0
  ar : Nat := 0
  deriving DecidableEq

/-- Wire bytes as the proxies see them: either bytes that
`dnslib.DNSRecord.parse` accepts (an encoding of a message) or bytes that make
it raise `DNSError`. -/
inductive Wire
  | garbage (tag : Nat)
  | msg (m : DNSMessage)
  deriving DecidableEq

/-- `dnslib.DNSRecord.parse`: succeeds exactly on encoded messages. -/
def parse_wire : Wire → Option DNSMessage
  | Wire.garbage _ => none
  | Wire.msg m => some m

/-- Outcome of one socket exchange with an upstream endpoint: the send/receive
times out, fails with a socket error, or a reply datagram/stream arrives. -/
inductive NetOutcome
  | timeout
  | sockError
  | reply (w : Wire)
  deriving DecidableEq

/-- An upstream endpoint: host and port, as produced by `_parse_addr` or as the
lite proxy's `(host, port)` tuples. -/
abbrev Endpoint := String × Int

/-- The network environment for one in-flight client query: the reply behaviour
of every endpoint over the datagram and the stream transport. -/
structure Net where
  udp : Endpoint → NetOutcome
  tcp : Endpoint → NetOutcome

/-- One upstream exchange as recorded in a transcript. -/
inductive Exch
  | udp (e : Endpoint)
  | tcp (e : Endpoint)
  deriving DecidableEq

/-! ### Python string semantics used by the source -/

/-- Python `s.rstrip('.')`. -/
def py_rstrip_dots (s : String) : String :=
  String.mk ((s.toList.reverse.dropWhile (fun c => c = '.')).reverse)

/-- Python `s.lower()` restricted to ASCII case mapping. -/
def py_lower (s : String) : String :=
  String.mk (s.toList.map Char.toLower)

/-- Python `needle in hay` (substring containment) on char lists. -/
def py_in_chars (needle : List Char) : List Char → Bool
  | [] => needle.isEmpty
  | c :: rest => needle.isPrefixOf (c :: rest) || py_in_chars needle rest

/-- Python `needle in hay` for strings. -/
def py_in (needle hay : String) : Bool :=
  py_in_chars needle.toList hay.toList

/-- Digits of a Python int literal after the sign: nonempty, and a single
underscore may only stand between two digits (PEP 515). Accumulates the value. -/
def py_digits_aux : Nat → List Char → Option Nat
  | acc, [] => some acc
  | acc, c :: rest =>
    if c.isDigit then py_digits_aux (acc * 10 + (c.toNat - 48)) rest
    else if c = '_' then
      match rest with
      | [] => none
      | d :: rest2 => if d.isDigit then py_digits_aux (acc * 10 + (d.toNat - 48)) rest2 else none
    else none

/-- The digit part of a Python int literal: nonempty, must start with a digit. -/
def py_digits : List Char → Option Nat
  | [] => none
  | c :: rest => if c.isDigit then py_digits_aux (c.toNat - 48) rest else none

/-- Python `s.strip()` restricted to ASCII whitespace. -/
def py_strip (s : List Char) : List Char :=
  ((s.dropWhile Char.isWhitespace).reverse.dropWhile Char.isWhitespace).reverse

/-- Python `int(s)` for a `str` argument: optional surrounding whitespace, an
optional sign, then digits with PEP 515 underscores; `none` models the
`ValueError` that `_parse_addr` catches. -/
def py_int (s : String) : Option Int :=
  match py_strip s.toList with
  | '+' :: rest => (py_digits rest).map (fun n => (n : Int))
  | '-' :: rest => (py_digits rest).map (fun n => -(n : Int))
  | t => (py_digits t).map (fun n => (n : Int))

/-! ### `_parse_addr` (dns_fallback_proxy.py lines 315-323) -/

/-- `DNS_STANDARD_PORT = 53`. -/
def DNS_STANDARD_PORT : Int := 53

/-- The part after the last colon: Python `addr_str.rsplit(':', 1)[1]`. -/
def after_last_colon (s : String) : String :=
  String.mk ((s.toList.reverse.takeWhile (fun c => c ≠ ':')).reverse)

/-- The part before the last colon: Python `addr_str.rsplit(':', 1)[0]`. -/
def before_last_colon (s : String) : String :=
  String.mk (((s.toList.reverse.dropWhile (fun c => c ≠ ':')).drop 1).reverse)

/-- `EnhancedDNSProxy._parse_addr`: split at the last colon when one is present;
`int(port)` raising `ValueError` is caught and replaced by port 53; a string
without a colon is the host with port 53. -/
def parse_addr (s : String) : Endpoint :=
  if s.toList.contains ':' then
    match py_int (after_last_colon s) with
    | some p => (before_last_colon s, p)
    | none => (before_last_colon s, DNS_STANDARD_PORT)
  else (s, DNS_STANDARD_PORT)

/-! ### Config and per-domain statistics (dns_fallback_proxy.py lines 131-176) -/

/-- The fields of the `Config` dataclass that the verified operations read,
with the dataclass defaults. -/
structure Config where
  primary_dns : String
  fallback_dns_servers : List String := []
  intelligent_caching : Bool := true
  max_domain_cache : Nat := 1000
  fallback_threshold : Nat := 3
  bypass_duration : Nat := 3600
  enable_query_deduplication : Bool := true
  deriving DecidableEq

/-- The `DomainStats` dataclass with its defaults; timestamps are Nat instants. -/
structure DomainStats where
  unbound_failures : Nat := 0
  total_queries : Nat := 0
  last_unbound_success : Option Nat := none
  last_failure : Option Nat := none
  consecutive_failures : Nat := 0
  bypass_until : Option Nat := none
  deriving DecidableEq

/-- `CDN_PATTERNS` (lines 173-176); a Python set, order irrelevant to `any`. -/
def CDN_PATTERNS : List String :=
  ["cloudfront.net", "fastly.com", "amazonaws.com", "akamai.net",
   "cloudflare.com", "jsdelivr.net", "unpkg.com", "cdnjs.cloudflare.com"]

/-- Lookup in an insertion-ordered dict rendered as an association list. -/
def alookup {β : Type} : List (String × β) → String → Option β
  | [], _ => none
  | (k, v) :: rest, key => if k = key then some v else alookup rest key

/-- `d[key] = v` on an insertion-ordered dict: replace in place if the key
exists, else append. -/
def ainsert {β : Type} : List (String × β) → String → β → List (String × β)
  | [], key, v => [(key, v)]
  | (k, w) :: rest, key, v =>
    if k = key then (k, v) :: rest else (k, w) :: ainsert rest key v

/-- `del d[key]` on an insertion-ordered dict. -/
def aremove {β : Type} : List (String × β) → String → List (String × β)
  | [], _ => []
  | (k, v) :: rest, key => if k = key then rest else (k, v) :: aremove rest key

/-- `_is_cdn_domain` (lines 325-328): Python substring containment
(`pattern in domain_lower`) of any CDN pattern in the lowercased,
dot-stripped domain — not a suffix match. -/
def is_cdn_domain (domain : String) : Bool :=
  CDN_PATTERNS.any (fun pattern => py_in pattern (py_rstrip_dots (py_lower domain)))

/-- `_should_bypass_unbound` (lines 330-352): false when intelligent caching is
off; true for a CDN pattern match; otherwise true when a stats record exists and
either `bypass_until` lies strictly in the future or the consecutive-failure
count has reached the threshold with at least 5 total queries. -/
def should_bypass_unbound (cfg : Config) (domain_stats : List (String × DomainStats))
    (domain : String) (now : Nat) : Bool :=
  if !cfg.intelligent_caching then false
  else if is_cdn_domain domain then true
  else
    match alookup domain_stats domain with
    | some stats =>
      (match stats.bypass_until with
       | some t => decide (now < t)
       | none => false)
      || (decide (stats.consecutive_failures ≥ cfg.fallback_threshold)
          && decide (stats.total_queries ≥ 5))
    | none => false

/-- The per-record body of `_update_domain_stats` (lines 365-380): bump
`total_queries`; for the primary ('unbound') resolver, a success stores the
instant, zeroes the consecutive counter and clears `bypass_until`, while a
failure bumps both failure counters, stores the instant, and sets
`bypass_until = now + bypass_duration` as soon as the consecutive counter has
reached the threshold — with no condition on `total_queries`. -/
def update_domain_stats_record (cfg : Config) (s : DomainStats) (success : Bool)
    (resolver : String) (now : Nat) : DomainStats :=
  let s1 := { s with total_queries := s.total_queries + 1 }
  if resolver = "unbound" then
    if success then
      { s1 with last_unbound_success := some now, consecutive_failures := 0,
                bypass_until := none }
    else
      let s2 := { s1 with unbound_failures := s1.unbound_failures + 1,
                          consecutive_failures := s1.consecutive_failures + 1,
                          last_failure := some now }
      if s2.consecutive_failures ≥ cfg.fallback_threshold then
        { s2 with bypass_until := some (now + cfg.bypass_duration) }
      else s2
  else s1

/-- Python `min(keys, key=lambda d: total_queries)` over the insertion-ordered
dict: the first entry with minimal `total_queries`. -/
def min_total_entry (first : String × DomainStats) (rest : List (String × DomainStats)) :
    String × DomainStats :=
  rest.foldl (fun best p => if p.2.total_queries < best.2.total_queries then p else best) first

/-- `_update_domain_stats` (lines 354-387): no-op when intelligent caching is
off; otherwise get-or-create the record, apply the per-record update, and when
the map exceeds `max_domain_cache` evict the entry with the fewest queries. -/
def update_domain_stats (cfg : Config) (domain_stats : List (String × DomainStats))
    (domain : String) (success : Bool) (resolver : String) (now : Nat) :
    List (String × DomainStats) :=
  if !cfg.intelligent_caching then domain_stats
  else
    let s0 := (alookup domain_stats domain).getD {}
    let s1 := update_domain_stats_record cfg s0 success resolver now
    let stats1 := ainsert domain_stats domain s1
    if stats1.length > cfg.max_domain_cache then
      match stats1 with
      | [] => stats1
      | first :: rest => aremove stats1 (min_total_entry first rest).1
    else stats1

/-! ### SERVFAIL synthesis (C1-codec) -/

/-- `_get_servfail_response` (dns_fallback_proxy.py lines 506-512):
`DNSHeader(id=.., qr=1, opcode=.., rcode=SERVFAIL)`. With `bitmap=None` dnslib
initialises the flag word to 0 and then sets RD=1, so AA, TC and RA stay clear
while RD is set; `DNSRecord(header, q=request.q)` carries the request's
question and no answer/authority/additional records. -/
def get_servfail_response (request : DNSMessage) : DNSMessage :=
  { id := request.id, qr := true, opcode := request.opcode, aa := false, tc := false,
    rd := true, ra := false, rcode := 2,
    qname := request.qname, qtype := request.qtype, an := 0, ns := 0, ar := 0 }

/-- The SERVFAIL the lite proxy's `UDPHandler.handle` builds
(lite_dns_failover_proxy.py lines 142-147): `DNSHeader(id=.., qr=1, aa=0, ra=1,
rcode=2)` with the request's question; dnslib's default sets RD=1 and the
opcode is left at 0. -/
def lite_servfail (rq : DNSMessage) : DNSMessage :=
  { id := rq.id, qr := true, opcode := 0, aa := false, tc := false,
    rd := true, ra := true, rcode := 2,
    qname := rq.qname, qtype := rq.qtype, an := 0, ns := 0, ar := 0 }

/-! ### Enhanced proxy upstream exchange and query pipeline
    (dns_fallback_proxy.py lines 414-612) -/

/-- `_send_dns_query` (lines 414-444): one UDP exchange with the endpoint parsed
from the server string; a reply is returned iff `DNSRecord.parse` accepts it;
timeout, socket error and an unparseable reply all yield `None`. No RCODE or TC
inspection and no TCP upgrade happen here. -/
def send_dns_query (net : Net) (dns_server : String) : Option Wire :=
  match net.udp (parse_addr dns_server) with
  | NetOutcome.reply w =>
    match parse_wire w with
    | some _ => some w
    | none => none
  | NetOutcome.timeout => none
  | NetOutcome.sockError => none

/-- `_send_dns_query` with its transcript of upstream exchanges: the function
body opens exactly one UDP socket, so the transcript is one UDP exchange. -/
def send_dns_query_exchanges (net : Net) (dns_server : String) : Option Wire × List Exch :=
  (send_dns_query net dns_server, [Exch.udp (parse_addr dns_server)])

/-- A partial model of dnslib's `QTYPE[...]` mnemonic table, used for the
dedupe key and the logged query type. -/
def qtype_name (t : Nat) : String :=
  if t = 1 then "A" else if t = 2 then "NS" else if t = 5 then "CNAME"
  else if t = 6 then "SOA" else if t = 12 then "PTR" else if t = 15 then "MX"
  else if t = 16 then "TXT" else if t = 28 then "AAAA" else if t = 33 then "SRV"
  else if t = 65 then "HTTPS" else "TYPE" ++ toString t

/-- `domain = str(request.q.qname).rstrip('.')` (line 516). -/
def domain_of (request : DNSMessage) : String :=
  py_rstrip_dots request.qname

/-- `query_key = f"{domain}:{query_type}"` (line 522). -/
def dedupe_key (request : DNSMessage) : String :=
  domain_of request ++ ":" ++ qtype_name request.qtype

/-- What `_handle_query_with_fallback` produces for one client query: the
response written back, the `resolver` tag and `success` flag of the logged
`QueryMetrics` event, the servers an upstream exchange was sent to (in order),
and the updated per-domain statistics. -/
structure HandleResult where
  response : Wire
  resolver_used : String
  success : Bool
  queried : List String
  stats : List (String × DomainStats)
  deriving DecidableEq

/-- The body of `_handle_query_with_fallback` after the deduplication check
(lines 536-592), flattened into its execution paths:

* bypass (lines 541-546): no primary exchange and no stats update; then the
  fallback block (561-571) queries `current_dns` only when it differs from the
  primary, overwriting `resolver_used` from `'bypassed'` to `'fallback'` on
  success; otherwise the SERVFAIL block (573-576) runs.
* no bypass: one primary exchange (548-559) — success forwards the reply with
  tag `'unbound'`, failure records the failure and falls through to the same
  fallback and SERVFAIL blocks, the tag still `'none'` until one of them sets it.

`success = resolver_used not in ['servfail', 'none']` (line 580) is computed
per path. -/
def handle_query_core (cfg : Config) (current_dns : String)
    (stats0 : List (String × DomainStats)) (request : DNSMessage) (net : Net)
    (now : Nat) : HandleResult :=
  let domain := domain_of request
  if should_bypass_unbound cfg stats0 domain now then
    if current_dns ≠ cfg.primary_dns then
      match send_dns_query net current_dns with
      | some r =>
        { response := r, resolver_used := "fallback", success := true,
          queried := [current_dns], stats := stats0 }
      | none =>
        { response := Wire.msg (get_servfail_response request),
          resolver_used := "servfail", success := false,
          queried := [current_dns], stats := stats0 }
    else
      { response := Wire.msg (get_servfail_response request),
        resolver_used := "servfail", success := false,
        queried := [], stats := stats0 }
  else
    match send_dns_query net cfg.primary_dns with
    | some r =>
      { response := r, resolver_used := "unbound", success := true,
        queried := [cfg.primary_dns],
        stats := update_domain_stats cfg stats0 domain true "unbound" now }
    | none =>
      let stats1 := update_domain_stats cfg stats0 domain false "unbound" now
      if current_dns ≠ cfg.primary_dns then
        match send_dns_query net current_dns with
        | some r =>
          { response := r, resolver_used := "fallback", success := true,
            queried := [cfg.primary_dns, current_dns], stats := stats1 }
        | none =>
          { response := Wire.msg (get_servfail_response request),
            resolver_used := "servfail", success := false,
            queried := [cfg.primary_dns, current_dns], stats := stats1 }
      else
        { response := Wire.msg (get_servfail_response request),
          resolver_used := "servfail", success := false,
          queried := [cfg.primary_dns], stats := stats1 }

/-- `_handle_query_with_fallback` (lines 514-592) including the deduplication
entry (lines 520-534): when deduplication is enabled and the key is already
pending, the waiter takes the stored response bytes verbatim — no transaction-id
rewrite — and only falls through to its own exchange when no stored result is
available after the wait. -/
def handle_query_with_fallback (cfg : Config) (current_dns : String)
    (stats0 : List (String × DomainStats)) (pending : List String)
    (results : List (String × Wire)) (request : DNSMessage) (net : Net)
    (now : Nat) : Wire :=
  if cfg.enable_query_deduplication && pending.contains (dedupe_key request) then
    match alookup results (dedupe_key request) with
    | some r => r
    | none => (handle_query_core cfg current_dns stats0 request net now).response
  else (handle_query_core cfg current_dns stats0 request net now).response

/-- `_handle_udp_request` (lines 598-612) as the list of datagrams sent back to
the client: a request that `DNSRecord.parse` rejects is dropped with no reply;
otherwise the pipeline's single response is sent. -/
def handle_udp_request (cfg : Config) (current_dns : String)
    (stats0 : List (String × DomainStats)) (pending : List String)
    (results : List (String × Wire)) (data : Wire) (net : Net) (now : Nat) :
    List Wire :=
  match parse_wire data with
  | none => []
  | some request =>
    [handle_query_with_fallback cfg current_dns stats0 pending results request net now]

/-! ### Lite proxy (lite_dns_failover_proxy.py) -/

/-- `PRIMARY_DNS` (line 20). -/
def PRIMARY_DNS : Endpoint := ("127.0.0.1", 5335)

/-- `FALLBACK_DNS` (lines 21-26). -/
def FALLBACK_DNS : List Endpoint :=
  [("1.1.1.1", 53), ("8.8.8.8", 53), ("9.9.9.9", 53), ("1.0.0.1", 53)]

/-- `RETRIES_PER_UPSTREAM` (line 30). -/
def RETRIES_PER_UPSTREAM : Nat := 1

/-- `_udp_query` (lines 43-55): returns the reply datagram's bytes unvalidated,
or `None` on timeout/OS error. -/
def udp_query (net : Net) (upstream : Endpoint) : Option Wire :=
  match net.udp upstream with
  | NetOutcome.reply w => some w
  | NetOutcome.timeout => none
  | NetOutcome.sockError => none

/-- `_tcp_query` (lines 58-82): returns the length-prefixed reply's bytes, or
`None` on timeout/OS error/short read. -/
def tcp_query (net : Net) (upstream : Endpoint) : Option Wire :=
  match net.tcp upstream with
  | NetOutcome.reply w => some w
  | NetOutcome.timeout => none
  | NetOutcome.sockError => none

/-- `_try_upstream` (lines 85-106), with its transcript of exchanges: UDP first;
no reply means failure; a reply that parses with TC=0 is returned as-is; TC=1
retries the same upstream over TCP and falls back to the UDP reply when TCP
fails; a reply that does not parse triggers a last-ditch TCP attempt whose
result (even `None`) is returned. -/
def try_upstream (net : Net) (upstream : Endpoint) : Option Wire × List Exch :=
  match udp_query net upstream with
  | none => (none, [Exch.udp upstream])
  | some udp_resp =>
    match parse_wire udp_resp with
    | some dns =>
      if dns.tc then
        match tcp_query net upstream with
        | some tcp_resp => (some tcp_resp, [Exch.udp upstream, Exch.tcp upstream])
        | none => (some udp_resp, [Exch.udp upstream, Exch.tcp upstream])
      else (some udp_resp, [Exch.udp upstream])
    | none => (tcp_query net upstream, [Exch.udp upstream, Exch.tcp upstream])

/-- The per-upstream attempt loop of `resolve_with_failover` (lines 116-121):
up to `1 + RETRIES_PER_UPSTREAM` tries of `_try_upstream`. -/
def try_attempts (net : Net) (upstream : Endpoint) : Nat → Option Wire
  | 0 => none
  | n + 1 =>
    match (try_upstream net upstream).1 with
    | some resp => some resp
    | none => try_attempts net upstream n

/-- `resolve_with_failover` (lines 109-123): walk the upstream list in order,
returning the first reply obtained. -/
def resolve_with_failover (net : Net) : List Endpoint → Option Wire
  | [] => none
  | upstream :: rest =>
    match try_attempts net upstream (1 + RETRIES_PER_UPSTREAM) with
    | some resp => some resp
    | none => resolve_with_failover net rest

/-- `upstreams = [PRIMARY_DNS] + FALLBACK_DNS` (line 114). -/
def lite_upstreams : List Endpoint := PRIMARY_DNS :: FALLBACK_DNS

/-- The lite proxy's `UDPHandler.handle` (lines 127-153) as the list of
datagrams sent back: a request `DNSRecord.parse` rejects is ignored silently;
otherwise either the resolved reply or a synthesized SERVFAIL (the inner
re-parse of the already-parsed request succeeds) is sent. -/
def lite_udp_handle (net : Net) (data : Wire) : List Wire :=
  match parse_wire data with
  | none => []
  | some rq =>
    match resolve_with_failover net lite_upstreams with
    | some resp => [resp]
    | none => [Wire.msg (lite_servfail rq)]

/-! ### Spec-side definitions for refinement comparison -/

/-- Modelled from the spec: `is_success(response)` is true iff QR=1 and
RCODE ∈ {NOERROR = 0, NXDOMAIN = 3}; stated only to compare with the code's
classification. -/
def spec_is_success (m : DNSMessage) : Bool :=
  m.qr && (m.rcode == 0 || m.rcode == 3)

/-- Modelled from the spec: the seven configured CDN suffixes. -/
def spec_cdn_suffixes : List String :=
  ["cloudfront.net", "fastly.com", "amazonaws.com", "akamai.net",
   "cloudflare.com", "jsdelivr.net", "unpkg.com"]

/-- Modelled from the spec: the lowercased QNAME ends with a CDN suffix. -/
def spec_cdn_suffix_match (qname : String) : Bool :=
  spec_cdn_suffixes.any (fun p => p.toList.isSuffixOf (py_lower qname).toList)

/-! ### Concrete fixtures -/

/-- A configuration with the dataclass defaults, one fallback configured. -/
def cfg0 : Config :=
  { primary_dns := "127.0.0.1:5335", fallback_dns_servers := ["1.1.1.1:53"] }

/-- The endpoint `_parse_addr` produces for `cfg0.primary_dns`. -/
def ep_primary : Endpoint := ("127.0.0.1", 5335)

/-- The endpoint `_parse_addr` produces for the configured fallback. -/
def ep_cf : Endpoint := ("1.1.1.1", 53)

/-- A client query for `A example.com`. -/
def req0 : DNSMessage := { id := 7, qname := "example.com.", qtype := 1 }

/-- An upstream reply to `req0` with RCODE=SERVFAIL. -/
def m_servfail : DNSMessage :=
  { id := 7, qr := true, rcode := 2, qname := "example.com.", qtype := 1 }

/-- A successful upstream reply to `req0`. -/
def m_good : DNSMessage :=
  { id := 7, qr := true, ra := true, rcode := 0, qname := "example.com.", qtype := 1, an := 1 }

/-- A network where the primary answers SERVFAIL and everyone else answers. -/
def net_servfail_primary : Net :=
  { udp := fun e => if e = ep_primary then NetOutcome.reply (Wire.msg m_servfail)
                    else NetOutcome.reply (Wire.msg m_good),
    tcp := fun _ => NetOutcome.timeout }

/-- A network where the primary times out and everyone else answers. -/
def net_primary_down : Net :=
  { udp := fun e => if e = ep_primary then NetOutcome.timeout
                    else NetOutcome.reply (Wire.msg m_good),
    tcp := fun _ => NetOutcome.timeout }

/-- A network where every exchange times out. -/
def net_down : Net :=
  { udp := fun _ => NetOutcome.timeout, tcp := fun _ => NetOutcome.timeout }

/-! ### C1: success classification of upstream responses -/

/-- C1 counterexample: the primary replies with RCODE=SERVFAIL (so the spec's
`is_success` is false) while the selector's current resolver is a healthy
fallback, yet the pipeline classifies the exchange as a success with tag
`unbound`, forwards the SERVFAIL bytes, and attempts no fallback exchange —
refuting the claim that SERVFAIL is classified as a failure that triggers
fallback. -/
theorem c1_counterexample :
    spec_is_success m_servfail = false ∧
    (handle_query_core cfg0 "1.1.1.1:53" [] req0 net_servfail_primary 0).resolver_used = "unbound" ∧
    (handle_query_core cfg0 "1.1.1.1:53" [] req0 net_servfail_primary 0).success = true ∧
    (handle_query_core cfg0 "1.1.1.1:53" [] req0 net_servfail_primary 0).response = Wire.msg m_servfail ∧
    (handle_query_core cfg0 "1.1.1.1:53" [] req0 net_servfail_primary 0).queried = [cfg0.primary_dns] := by
  decide

/-- C1 (amended): the code classifies a primary exchange by parseability alone:
any reply whose bytes parse as a DNS message — whatever its QR, RCODE
(NOERROR, NXDOMAIN, SERVFAIL and REFUSED alike) — is classified as success,
tagged `unbound` and forwarded with no fallback exchange; only a timeout,
socket error or unparseable reply is classified as a failure, after which the
tag can only be `fallback` or `servfail`. -/
theorem c1_parse_based_success (cfg : Config) (current_dns : String)
    (stats : List (String × DomainStats)) (request : DNSMessage) (net : Net) (now : Nat)
    (hb : should_bypass_unbound cfg stats (domain_of request) now = false) :
    (∀ m : DNSMessage, net.udp (parse_addr cfg.primary_dns) = NetOutcome.reply (Wire.msg m) →
      (handle_query_core cfg current_dns stats request net now).resolver_used = "unbound" ∧
      (handle_query_core cfg current_dns stats request net now).success = true ∧
      (handle_query_core cfg current_dns stats request net now).response = Wire.msg m ∧
      (handle_query_core cfg current_dns stats request net now).queried = [cfg.primary_dns]) ∧
    (send_dns_query net cfg.primary_dns = none →
      (handle_query_core cfg current_dns stats request net now).resolver_used = "fallback" ∨
      (handle_query_core cfg current_dns stats request net now).resolver_used = "servfail") := by
  constructor
  · intro m hm
    have hs : send_dns_query net cfg.primary_dns = some (Wire.msg m) := by
      simp [send_dns_query, hm, parse_wire]
    simp [handle_query_core, hb, hs]
  · intro hn
    by_cases hc : current_dns = cfg.primary_dns
    · simp [handle_query_core, hb, hn, hc]
    · cases hq : send_dns_query net current_dns <;>
        simp [handle_query_core, hb, hn, hc, hq]

/-- A query for a name that yields NXDOMAIN. -/
def req_nx : DNSMessage := { id := 9, qname := "nx.example.", qtype := 1 }

/-- An NXDOMAIN reply to `req_nx`. -/
def m_nxdomain : DNSMessage :=
  { id := 9, qr := true, ra := true, rcode := 3, qname := "nx.example.", qtype := 1 }

/-- A network where the primary answers NXDOMAIN. -/
def net_nx : Net :=
  { udp := fun e => if e = ep_primary then NetOutcome.reply (Wire.msg m_nxdomain)
                    else NetOutcome.timeout,
    tcp := fun _ => NetOutcome.timeout }

/-- C1 witness: an NXDOMAIN reply from the primary is forwarded as a success
with no fallback exchange. -/
theorem c1_witness :
    (handle_query_core cfg0 "1.1.1.1:53" [] req_nx net_nx 0).resolver_used = "unbound" ∧
    (handle_query_core cfg0 "1.1.1.1:53" [] req_nx net_nx 0).success = true ∧
    (handle_query_core cfg0 "1.1.1.1:53" [] req_nx net_nx 0).response = Wire.msg m_nxdomain ∧
    (handle_query_core cfg0 "1.1.1.1:53" [] req_nx net_nx 0).queried = [cfg0.primary_dns] :=
  (c1_parse_based_success cfg0 "1.1.1.1:53" [] req_nx net_nx 0 (by decide)).1
    m_nxdomain (by decide)

/-! ### C2: fallback attempts after a primary failure -/

/-- C2 counterexample: the primary times out, a fallback is configured and
healthy (it would answer `m_good`), but the selector's current resolver is
still the primary — so the pipeline sends no fallback exchange at all and
synthesizes SERVFAIL, refuting the claim that at least one fallback exchange
is attempted and that the fallback list is iterated. -/
theorem c2_counterexample :
    cfg0.fallback_dns_servers = ["1.1.1.1:53"] ∧
    send_dns_query net_primary_down "1.1.1.1:53" = some (Wire.msg m_good) ∧
    (handle_query_core cfg0 cfg0.primary_dns [] req0 net_primary_down 0).queried = [cfg0.primary_dns] ∧
    (handle_query_core cfg0 cfg0.primary_dns [] req0 net_primary_down 0).resolver_used = "servfail" ∧
    (handle_query_core cfg0 cfg0.primary_dns [] req0 net_primary_down 0).response
      = Wire.msg (get_servfail_response req0) := by
  decide

/-- C2 (amended): when the primary exchange fails, at most one fallback
exchange is attempted, and only when the selector's current resolver differs
from the primary; the configured fallback list is never iterated inside a
query. If the current resolver is still the primary, SERVFAIL is synthesized
with no fallback exchange. -/
theorem c2_single_fallback_exchange (cfg : Config) (current_dns : String)
    (stats : List (String × DomainStats)) (request : DNSMessage) (net : Net) (now : Nat)
    (hb : should_bypass_unbound cfg stats (domain_of request) now = false)
    (hp : send_dns_query net cfg.primary_dns = none) :
    (current_dns = cfg.primary_dns →
      (handle_query_core cfg current_dns stats request net now).queried = [cfg.primary_dns] ∧
      (handle_query_core cfg current_dns stats request net now).resolver_used = "servfail" ∧
      (handle_query_core cfg current_dns stats request net now).response
        = Wire.msg (get_servfail_response request)) ∧
    (current_dns ≠ cfg.primary_dns →
      (handle_query_core cfg current_dns stats request net now).queried
        = [cfg.primary_dns, current_dns] ∧
      (∀ r, send_dns_query net current_dns = some r →
        (handle_query_core cfg current_dns stats request net now).resolver_used = "fallback" ∧
        (handle_query_core cfg current_dns stats request net now).response = r) ∧
      (send_dns_query net current_dns = none →
        (handle_query_core cfg current_dns stats request net now).resolver_used = "servfail" ∧
        (handle_query_core cfg current_dns stats request net now).response
          = Wire.msg (get_servfail_response request))) := by
  constructor
  · intro hc
    simp [handle_query_core, hb, hp, hc]
  · intro hc
    refine ⟨?_, ?_, ?_⟩
    · cases hq : send_dns_query net current_dns <;>
        simp [handle_query_core, hb, hp, hc, hq]
    · intro r hr
      simp [handle_query_core, hb, hp, hc, hr]
    · intro hn
      simp [handle_query_core, hb, hp, hc, hn]

/-- C2 witness: the amended theorem applied to a concrete primary timeout with
the selector still on the primary. -/
theorem c2_witness :
    (handle_query_core cfg0 cfg0.primary_dns [] req0 net_primary_down 0).queried
      = [cfg0.primary_dns] ∧
    (handle_query_core cfg0 cfg0.primary_dns [] req0 net_primary_down 0).resolver_used
      = "servfail" ∧
    (handle_query_core cfg0 cfg0.primary_dns [] req0 net_primary_down 0).response
      = Wire.msg (get_servfail_response req0) :=
  (c2_single_fallback_exchange cfg0 cfg0.primary_dns [] req0 net_primary_down 0
    (by decide) (by decide)).1 rfl

/-! ### C3: dedupe transaction-id rewrite -/

/-- A waiting client's query for `A popular.test` with id 0x2222. -/
def req_popular : DNSMessage := { id := 8738, qname := "popular.test.", qtype := 1 }

/-- The stored response of the client that performed the upstream exchange,
carrying that client's id 0x1111. -/
def stored_resp : DNSMessage :=
  { id := 4369, qr := true, ra := true, qname := "popular.test.", qtype := 1, an := 1 }

/-- C3: a dedupe-satisfied client receives the stored response bytes verbatim —
carrying the id of the query that performed the upstream exchange (0x1111),
not its own request id (0x2222). The code performs no transaction-id rewrite,
so real clients would reject the reply. -/
theorem c3_dedupe_id_not_rewritten :
    handle_query_with_fallback cfg0 "1.1.1.1:53" [] ["popular.test:A"]
        [("popular.test:A", Wire.msg stored_resp)] req_popular net_down 0
      = Wire.msg stored_resp ∧
    cfg0.enable_query_deduplication = true ∧
    stored_resp.id = 4369 ∧ req_popular.id = 8738 ∧ stored_resp.id ≠ req_popular.id := by
  decide

/-! ### C4: bypass behaviour -/

/-- A client query for a CDN name. -/
def req_cdn : DNSMessage := { id := 11, qname := "d123.cloudfront.net.", qtype := 1 }

/-- A successful reply to `req_cdn`. -/
def m_cdn_good : DNSMessage :=
  { id := 11, qr := true, ra := true, qname := "d123.cloudfront.net.", qtype := 1, an := 1 }

/-- A network where the fallback endpoint answers `req_cdn`. -/
def net_cf : Net :=
  { udp := fun e => if e = ep_cf then NetOutcome.reply (Wire.msg m_cdn_good)
                    else NetOutcome.reply (Wire.msg m_good),
    tcp := fun _ => NetOutcome.timeout }

/-- C4 counterexample: a CDN name is bypassed and the current fallback answers,
but the logged event carries resolver tag `fallback`, not `bypassed` — the
code overwrites the `bypassed` tag on fallback success, so the tag the claim
requires never reaches the event. -/
theorem c4_counterexample :
    should_bypass_unbound cfg0 [] (domain_of req_cdn) 0 = true ∧
    (handle_query_core cfg0 "1.1.1.1:53" [] req_cdn net_cf 0).resolver_used = "fallback" ∧
    (handle_query_core cfg0 "1.1.1.1:53" [] req_cdn net_cf 0).resolver_used ≠ "bypassed" ∧
    (handle_query_core cfg0 "1.1.1.1:53" [] req_cdn net_cf 0).queried = ["1.1.1.1:53"] := by
  decide

/-- C4 (amended): when the bypass policy matches, no primary exchange is
attempted and the domain statistics are untouched; an upstream exchange goes
to the selector's current resolver exactly when that resolver differs from the
primary (otherwise no exchange happens at all and SERVFAIL is synthesized);
and the emitted event's resolver tag is `fallback` or `servfail`, never
`bypassed`. -/
theorem c4_bypass_behavior (cfg : Config) (current_dns : String)
    (stats : List (String × DomainStats)) (request : DNSMessage) (net : Net) (now : Nat)
    (hb : should_bypass_unbound cfg stats (domain_of request) now = true) :
    ((handle_query_core cfg current_dns stats request net now).resolver_used = "fallback" ∨
     (handle_query_core cfg current_dns stats request net now).resolver_used = "servfail") ∧
    (handle_query_core cfg current_dns stats request net now).resolver_used ≠ "bypassed" ∧
    cfg.primary_dns ∉ (handle_query_core cfg current_dns stats request net now).queried ∧
    (handle_query_core cfg current_dns stats request net now).stats = stats ∧
    (current_dns = cfg.primary_dns →
      (handle_query_core cfg current_dns stats request net now).queried = [] ∧
      (handle_query_core cfg current_dns stats request net now).resolver_used = "servfail") ∧
    (current_dns ≠ cfg.primary_dns →
      (handle_query_core cfg current_dns stats request net now).queried = [current_dns]) := by
  by_cases hc : current_dns = cfg.primary_dns
  · simp [handle_query_core, hb, hc]
  · have hne : cfg.primary_dns ≠ current_dns := fun h => hc h.symm
    cases hq : send_dns_query net current_dns <;>
      simp [handle_query_core, hb, hc, hq, hne]

/-- C4 witness: the amended theorem applied to the concrete CDN query with the
selector on the fallback. -/
theorem c4_witness :
    ((handle_query_core cfg0 "1.1.1.1:53" [] req_cdn net_cf 0).resolver_used = "fallback" ∨
     (handle_query_core cfg0 "1.1.1.1:53" [] req_cdn net_cf 0).resolver_used = "servfail") ∧
    (handle_query_core cfg0 "1.1.1.1:53" [] req_cdn net_cf 0).resolver_used ≠ "bypassed" ∧
    cfg0.primary_dns ∉ (handle_query_core cfg0 "1.1.1.1:53" [] req_cdn net_cf 0).queried ∧
    (handle_query_core cfg0 "1.1.1.1:53" [] req_cdn net_cf 0).stats = [] ∧
    ("1.1.1.1:53" = cfg0.primary_dns →
      (handle_query_core cfg0 "1.1.1.1:53" [] req_cdn net_cf 0).queried = [] ∧
      (handle_query_core cfg0 "1.1.1.1:53" [] req_cdn net_cf 0).resolver_used = "servfail") ∧
    ("1.1.1.1:53" ≠ cfg0.primary_dns →
      (handle_query_core cfg0 "1.1.1.1:53" [] req_cdn net_cf 0).queried = ["1.1.1.1:53"]) :=
  c4_bypass_behavior cfg0 "1.1.1.1:53" [] req_cdn net_cf 0 (by decide)

/-! ### C5: shape of the synthesized SERVFAIL -/

/-- C5 counterexample: the enhanced proxy's `_get_servfail_response` leaves RA
clear (dnslib's header default sets only RD), refuting the claim that every
synthesized SERVFAIL has RA=1; the lite proxy's handler does set RA=1. -/
theorem c5_counterexample :
    (get_servfail_response req0).ra = false ∧ (lite_servfail req0).ra = true := by
  decide

/-- C5 (amended): both synthesized SERVFAILs copy the request's 16-bit id and
question and have QR=1, RCODE=2 and zero answer/authority/additional records;
the lite proxy's SERVFAIL sets RA=1 while the enhanced proxy's
`_get_servfail_response` leaves RA=0; both carry dnslib's default RD=1, the
enhanced one copies the request's opcode while the lite one leaves opcode 0. -/
theorem c5_servfail_shape (request : DNSMessage) :
    (get_servfail_response request).id = request.id ∧
    (get_servfail_response request).qname = request.qname ∧
    (get_servfail_response request).qtype = request.qtype ∧
    (get_servfail_response request).qr = true ∧
    (get_servfail_response request).rcode = 2 ∧
    (get_servfail_response request).an = 0 ∧
    (get_servfail_response request).ns = 0 ∧
    (get_servfail_response request).ar = 0 ∧
    (get_servfail_response request).opcode = request.opcode ∧
    (get_servfail_response request).rd = true ∧
    (get_servfail_response request).ra = false ∧
    (lite_servfail request).id = request.id ∧
    (lite_servfail request).qname = request.qname ∧
    (lite_servfail request).qtype = request.qtype ∧
    (lite_servfail request).qr = true ∧
    (lite_servfail request).rcode = 2 ∧
    (lite_servfail request).an = 0 ∧
    (lite_servfail request).ns = 0 ∧
    (lite_servfail request).ar = 0 ∧
    (lite_servfail request).ra = true ∧
    (lite_servfail request).rd = true := by
  simp [get_servfail_response, lite_servfail]

/-- C5 witness: the shape theorem applied to the concrete request `req0`. -/
theorem c5_witness :
    (get_servfail_response req0).id = req0.id ∧
    (get_servfail_response req0).qname = req0.qname ∧
    (get_servfail_response req0).qtype = req0.qtype ∧
    (get_servfail_response req0).qr = true ∧
    (get_servfail_response req0).rcode = 2 ∧
    (get_servfail_response req0).an = 0 ∧
    (get_servfail_response req0).ns = 0 ∧
    (get_servfail_response req0).ar = 0 ∧
    (get_servfail_response req0).opcode = req0.opcode ∧
    (get_servfail_response req0).rd = true ∧
    (get_servfail_response req0).ra = false ∧
    (lite_servfail req0).id = req0.id ∧
    (lite_servfail req0).qname = req0.qname ∧
    (lite_servfail req0).qtype = req0.qtype ∧
    (lite_servfail req0).qr = true ∧
    (lite_servfail req0).rcode = 2 ∧
    (lite_servfail req0).an = 0 ∧
    (lite_servfail req0).ns = 0 ∧
    (lite_servfail req0).ar = 0 ∧
    (lite_servfail req0).ra = true ∧
    (lite_servfail req0).rd = true :=
  c5_servfail_shape req0

/-! ### C6: characterization of should_bypass -/

/-- C6 counterexample: `cloudfront.net.example` does not end with any CDN
suffix and has no domain record, yet `_should_bypass_unbound` returns true,
because `_is_cdn_domain` tests Python substring containment (`pattern in
domain`), not a suffix match — refuting the claimed iff. -/
theorem c6_counterexample :
    cfg0.intelligent_caching = true ∧
    should_bypass_unbound cfg0 [] "cloudfront.net.example" 0 = true ∧
    spec_cdn_suffix_match "cloudfront.net.example" = false ∧
    alookup ([] : List (String × DomainStats)) "cloudfront.net.example" = none := by
  decide

/-- C6 (amended): with the feature enabled, `should_bypass` returns true iff a
CDN pattern occurs as a substring of the lowercased dot-stripped QNAME, or a
domain record exists whose `bypass_until` lies strictly in the future, or a
domain record exists whose consecutive-failure count has reached the threshold
with at least 5 total queries; for no other name does it return true. -/
theorem c6_should_bypass_iff (cfg : Config) (domain_stats : List (String × DomainStats))
    (domain : String) (now : Nat) (hc : cfg.intelligent_caching = true) :
    should_bypass_unbound cfg domain_stats domain now = true ↔
      (is_cdn_domain domain = true ∨
       ∃ s, alookup domain_stats domain = some s ∧
         ((∃ t, s.bypass_until = some t ∧ now < t) ∨
          (cfg.fallback_threshold ≤ s.consecutive_failures ∧ 5 ≤ s.total_queries))) := by
  unfold should_bypass_unbound
  rw [hc]
  by_cases hcdn : is_cdn_domain domain = true
  · simp [hcdn]
  · rw [Bool.not_eq_true] at hcdn
    cases halo : alookup domain_stats domain with
    | none => simp [hcdn, halo]
    | some s =>
      cases hbu : s.bypass_until with
      | none => simp [hcdn, halo, hbu, ge_iff_le]
      | some t => simp [hcdn, halo, hbu, ge_iff_le]

/-- A stats map with a record past the failure threshold. -/
def stats_w : List (String × DomainStats) :=
  [("flaky.test", { total_queries := 6, consecutive_failures := 3 })]

/-- C6 witness: the characterization applied to a record with three
consecutive failures over six queries under the default threshold. -/
theorem c6_witness : should_bypass_unbound cfg0 stats_w "flaky.test" 0 = true :=
  (c6_should_bypass_iff cfg0 stats_w "flaky.test" 0 rfl).mpr
    (Or.inr ⟨{ total_queries := 6, consecutive_failures := 3 }, by decide, Or.inr (by decide)⟩)

/-! ### C7: recording primary results -/

/-- A record with two consecutive failures over two total queries. -/
def stats_flaky : DomainStats := { total_queries := 2, consecutive_failures := 2 }

/-- C7 counterexample: a third consecutive primary failure sets `bypass_until`
although the record has seen only 3 total queries — the code checks no
`total_queries ≥ 5` condition when setting `bypass_until`, refuting the
claimed invariant. -/
theorem c7_counterexample :
    (update_domain_stats_record cfg0 stats_flaky false "unbound" 100).bypass_until = some 3700 ∧
    (update_domain_stats_record cfg0 stats_flaky false "unbound" 100).consecutive_failures = 3 ∧
    (update_domain_stats_record cfg0 stats_flaky false "unbound" 100).total_queries = 3 ∧
    (update_domain_stats_record cfg0 stats_flaky false "unbound" 100).total_queries < 5 := by
  decide

/-- C7 (amended): recording a primary success resets the consecutive-failure
counter to zero, clears `bypass_until` and stores the success instant;
recording a primary failure increments both failure counters, stores the
failure instant, and sets `bypass_until = now + bypass_duration` exactly when
the incremented consecutive counter has reached the threshold — with no
condition on `total_queries`; both bump `total_queries`. -/
theorem c7_record_primary_result (cfg : Config) (s : DomainStats) (now : Nat) :
    (update_domain_stats_record cfg s true "unbound" now).consecutive_failures = 0 ∧
    (update_domain_stats_record cfg s true "unbound" now).bypass_until = none ∧
    (update_domain_stats_record cfg s true "unbound" now).last_unbound_success = some now ∧
    (update_domain_stats_record cfg s true "unbound" now).total_queries = s.total_queries + 1 ∧
    (update_domain_stats_record cfg s false "unbound" now).consecutive_failures
      = s.consecutive_failures + 1 ∧
    (update_domain_stats_record cfg s false "unbound" now).unbound_failures
      = s.unbound_failures + 1 ∧
    (update_domain_stats_record cfg s false "unbound" now).last_failure = some now ∧
    (update_domain_stats_record cfg s false "unbound" now).total_queries = s.total_queries + 1 ∧
    (update_domain_stats_record cfg s false "unbound" now).bypass_until
      = (if s.consecutive_failures + 1 ≥ cfg.fallback_threshold
         then some (now + cfg.bypass_duration) else s.bypass_until) := by
  by_cases h : s.consecutive_failures + 1 ≥ cfg.fallback_threshold <;>
    simp [update_domain_stats_record, h]

/-- C7 witness: the amended theorem applied to the concrete record
`stats_flaky` at instant 100. -/
theorem c7_witness :
    (update_domain_stats_record cfg0 stats_flaky true "unbound" 100).consecutive_failures = 0 ∧
    (update_domain_stats_record cfg0 stats_flaky true "unbound" 100).bypass_until = none ∧
    (update_domain_stats_record cfg0 stats_flaky true "unbound" 100).last_unbound_success
      = some 100 ∧
    (update_domain_stats_record cfg0 stats_flaky true "unbound" 100).total_queries
      = stats_flaky.total_queries + 1 ∧
    (update_domain_stats_record cfg0 stats_flaky false "unbound" 100).consecutive_failures
      = stats_flaky.consecutive_failures + 1 ∧
    (update_domain_stats_record cfg0 stats_flaky false "unbound" 100).unbound_failures
      = stats_flaky.unbound_failures + 1 ∧
    (update_domain_stats_record cfg0 stats_flaky false "unbound" 100).last_failure = some 100 ∧
    (update_domain_stats_record cfg0 stats_flaky false "unbound" 100).total_queries
      = stats_flaky.total_queries + 1 ∧
    (update_domain_stats_record cfg0 stats_flaky false "unbound" 100).bypass_until
      = (if stats_flaky.consecutive_failures + 1 ≥ cfg0.fallback_threshold
         then some (100 + cfg0.bypass_duration) else stats_flaky.bypass_until) :=
  c7_record_primary_result cfg0 stats_flaky 100

/-! ### C8: truncation upgrade to TCP -/

/-- A truncated (TC=1) UDP reply. -/
def trunc_msg : DNSMessage :=
  { id := 5, qr := true, tc := true, qname := "big.test.", qtype := 1 }

/-- The full answer available over TCP. -/
def big_msg : DNSMessage :=
  { id := 5, qr := true, tc := false, qname := "big.test.", qtype := 1, an := 20 }

/-- A network whose UDP replies are truncated and whose TCP replies are full. -/
def net_trunc : Net :=
  { udp := fun _ => NetOutcome.reply (Wire.msg trunc_msg),
    tcp := fun _ => NetOutcome.reply (Wire.msg big_msg) }

/-- C8 counterexample: the enhanced proxy's `_send_dns_query` receives a TC=1
UDP reply, yet returns the truncated bytes after a single UDP exchange and
never queries TCP — even though the endpoint's TCP side would serve the full
answer — refuting the claim for "every upstream exchange". -/
theorem c8_counterexample :
    send_dns_query_exchanges net_trunc "127.0.0.1:5335"
      = (some (Wire.msg trunc_msg), [Exch.udp ("127.0.0.1", 5335)]) ∧
    trunc_msg.tc = true ∧
    net_trunc.tcp ("127.0.0.1", 5335) = NetOutcome.reply (Wire.msg big_msg) ∧
    Wire.msg trunc_msg ≠ Wire.msg big_msg := by
  decide

/-- C8 (amended): only the lite proxy's `_try_upstream` performs the upgrade:
a parseable UDP reply with TC=0 is returned as-is after one UDP exchange; with
TC=1 a TCP exchange against the same endpoint follows immediately, its result
returned when it succeeds and the truncated UDP reply otherwise. The enhanced
proxy's `_send_dns_query` performs exactly one UDP exchange with no TC
inspection. -/
theorem c8_tc_upgrade (net : Net) (upstream : Endpoint) (w : Wire) (m : DNSMessage)
    (hu : net.udp upstream = NetOutcome.reply w) (hm : parse_wire w = some m) :
    (m.tc = false → try_upstream net upstream = (some w, [Exch.udp upstream])) ∧
    (m.tc = true → try_upstream net upstream
        = (some ((tcp_query net upstream).getD w), [Exch.udp upstream, Exch.tcp upstream])) ∧
    (∀ server : String, send_dns_query_exchanges net server
        = (send_dns_query net server, [Exch.udp (parse_addr server)])) := by
  refine ⟨?_, ?_, fun _ => rfl⟩
  · intro htc
    simp [try_upstream, udp_query, hu, hm, htc]
  · intro htc
    cases ht : tcp_query net upstream <;>
      simp [try_upstream, udp_query, hu, hm, htc, ht]

/-- C8 witness: the lite proxy upgrades a concrete truncated reply to TCP and
returns the TCP answer. -/
theorem c8_witness :
    try_upstream net_trunc PRIMARY_DNS
      = (some (Wire.msg big_msg), [Exch.udp PRIMARY_DNS, Exch.tcp PRIMARY_DNS]) := by
  have h := (c8_tc_upgrade net_trunc PRIMARY_DNS (Wire.msg trunc_msg) trunc_msg rfl rfl).2.1 rfl
  simpa [tcp_query, net_trunc] using h

/-! ### C9: at most one response per client datagram -/

/-- C9: in both proxies, a client datagram that fails to parse produces no
response datagram of any kind, and a well-formed client query produces at most
one response datagram. -/
theorem c9_at_most_one_response (cfg : Config) (current_dns : String)
    (stats : List (String × DomainStats)) (pending : List String)
    (results : List (String × Wire)) (data : Wire) (net : Net) (now : Nat) :
    (parse_wire data = none →
      handle_udp_request cfg current_dns stats pending results data net now = [] ∧
      lite_udp_handle net data = []) ∧
    (handle_udp_request cfg current_dns stats pending results data net now).length ≤ 1 ∧
    (lite_udp_handle net data).length ≤ 1 := by
  refine ⟨?_, ?_, ?_⟩
  · intro h
    cases data with
    | garbage t => simp [handle_udp_request, lite_udp_handle, parse_wire]
    | msg m => simp [parse_wire] at h
  · cases data with
    | garbage t => simp [handle_udp_request, parse_wire]
    | msg m => simp [handle_udp_request, parse_wire]
  · cases data with
    | garbage t => simp [lite_udp_handle, parse_wire]
    | msg m =>
      cases hr : resolve_with_failover net lite_upstreams <;>
        simp [lite_udp_handle, parse_wire, hr]

/-- C9 witness: a malformed datagram is dropped silently by both handlers. -/
theorem c9_witness :
    handle_udp_request cfg0 "1.1.1.1:53" [] [] [] (Wire.garbage 0) net_down 0 = [] ∧
    lite_udp_handle net_down (Wire.garbage 0) = [] :=
  (c9_at_most_one_response cfg0 "1.1.1.1:53" [] [] [] (Wire.garbage 0) net_down 0).1 rfl

/-! ### C10: endpoint-address parsing -/

/-- C10: `_parse_addr` is a total function; a string without a colon becomes
that host with port 53; when the text after the last colon is not a valid
Python integer the port silently defaults to 53; a valid integer is used as
the port. -/
theorem c10_parse_addr (s : String) :
    (s.toList.contains ':' = false → parse_addr s = (s, 53)) ∧
    (s.toList.contains ':' = true → py_int (after_last_colon s) = none →
      parse_addr s = (before_last_colon s, 53)) ∧
    (∀ p : Int, s.toList.contains ':' = true → py_int (after_last_colon s) = some p →
      parse_addr s = (before_last_colon s, p)) := by
  refine ⟨?_, ?_, ?_⟩
  · intro h
    unfold parse_addr
    rw [h]
    simp [DNS_STANDARD_PORT]
  · intro h hp
    unfold parse_addr
    rw [h, hp]
    simp [DNS_STANDARD_PORT]
  · intro p h hp
    unfold parse_addr
    rw [h, hp]
    simp

/-- C10 witness: a non-numeric port silently becomes 53, and a bare host gets
port 53. -/
theorem c10_witness :
    parse_addr "9.9.9.9:dns" = ("9.9.9.9", 53) ∧ parse_addr "8.8.8.8" = ("8.8.8.8", 53) := by
  constructor
  · have h := (c10_parse_addr "9.9.9.9:dns").2.1 (by decide) (by decide)
    have e : before_last_colon "9.9.9.9:dns" = "9.9.9.9" := by decide
    rw [e] at h
    exact h
  · have h := (c10_parse_addr "8.8.8.8").1 (by decide)
    exact h

end DnsProxy
